import Mathlib

/-!
Shallow embedding of `ldsapi.py` (module `ldsapi`), a small client for the
LDS Tools web services.  The embedding models:

* the Python string operations used by `Client._retrieve_endpoints`
  (`str.replace`, `in`, `str.startswith`, `str.endswith`, slicing `[:-2]`),
* the endpoint-map normalization rules of `Client._retrieve_endpoints`,
* the stateful operations `Client.sign_in`, `Client.sign_out`,
  `Client.get_unit` (memoized via `functools.lru_cache`) and `Client.get`,
  with the HTTP transport abstracted as explicit oracles, and
* the `session` context manager (its `finally: client.sign_out()` clause).

Strings are Lean `String`s; the character-level work is done on `String.data`.
-/

/-- Python exceptions that the module can raise.  `PyError.error` is the
module's own `Error` exception class (with its message); the others are the
builtin exceptions the code can raise. -/
inductive PyError where
  | error (msg : String)
  | keyError (key : String)
  | indexError
  | valueError
  | assertionError
deriving DecidableEq, Repr

/-- Fuel-indexed core of Python `str.replace` on character lists: replaces
non-overlapping occurrences of `pat` left to right.  The fuel is always at
least the length of the subject list, so the `0, s` branch is unreachable in
`pyReplace` below. -/
def replFuel (pat rep : List Char) : Nat → List Char → List Char
  | _, [] => []
  | 0, s => s
  | n + 1, c :: rest =>
    if pat.isPrefixOf (c :: rest) && !pat.isEmpty then
      rep ++ replFuel pat rep n ((c :: rest).drop pat.length)
    else
      c :: replFuel pat rep n rest

/-- Python `s.replace(pat, rep)` for nonempty `pat` (every pattern used by
the source is nonempty): replace all non-overlapping occurrences, scanning
left to right. -/
def pyReplace (s pat rep : String) : String :=
  ⟨replFuel pat.data rep.data s.data.length s.data⟩

/-- Core of Python's substring test `pat in s` on character lists. -/
def containsSub (pat : List Char) : List Char → Bool
  | [] => pat.isEmpty
  | c :: rest => pat.isPrefixOf (c :: rest) || containsSub pat rest

/-- Python `pat in s` (substring containment). -/
def containsSubstr (s pat : String) : Bool :=
  containsSub pat.data s.data

/-- Python `s.startswith(t)`. -/
def pyStartsWith (s t : String) : Bool :=
  t.data.isPrefixOf s.data

/-- Python `s.endswith(t)`. -/
def pyEndsWith (s t : String) : Bool :=
  t.data.isSuffixOf s.data

/-- Python slicing `s[:-2]` (drop the last two characters). -/
def stripLast2 (s : String) : String :=
  ⟨s.data.take (s.data.length - 2)⟩

/-- The "Fix unit parameter" block of `Client._retrieve_endpoints`
(`if 'unit/%@' in url: ... elif 'unitNumber=%@' in url: ...
elif key.startswith('unit-') and url.endswith('/%@'): url[:-2] + '{unit}'`). -/
def fixUnit (key url : String) : String :=
  if containsSubstr url "unit/%@" then
    pyReplace url "unit/%@" "unit/{unit}"
  else if containsSubstr url "unitNumber=%@" then
    pyReplace url "=%@" "={unit}"
  else if pyStartsWith key "unit-" && pyEndsWith url "/%@" then
    stripLast2 url ++ "{unit}"
  else
    url

/-- The "Fix member parameter" block of `Client._retrieve_endpoints`
(`if 'membership-record/%@' in url: url.replace('%@', '{member}')
elif 'photo/url/%@' in url: url.replace('url/%@', 'url/{member}')`). -/
def fixMember (url : String) : String :=
  if containsSubstr url "membership-record/%@" then
    pyReplace url "%@" "{member}"
  else if containsSubstr url "photo/url/%@" then
    pyReplace url "url/%@" "url/{member}"
  else
    url

/-- The "Fix misc" block of `Client._retrieve_endpoints`: for each pattern
`%@`, `%d`, `%.0f` in turn, if it occurs, replace it by `{}`. -/
def fixMisc (url : String) : String :=
  let u1 := if containsSubstr url "%@" then pyReplace url "%@" "{}" else url
  let u2 := if containsSubstr u1 "%d" then pyReplace u1 "%d" "{}" else u1
  if containsSubstr u2 "%.0f" then pyReplace u2 "%.0f" "{}" else u2

/-- Full normalization applied by `Client._retrieve_endpoints` to one
retained entry `(key, url)` (the final value stored in `self._endpoints`). -/
def normalizeUrl (key url : String) : String :=
  fixMisc (fixMember (fixUnit key url))

/-- The endpoint map built by `Client._retrieve_endpoints` from the parsed
bootstrap configuration object (`res.json().items()`): entries whose value
does not start with `'http'` are skipped; retained entries are normalized. -/
def retrieveEndpoints (config : List (String × String)) : List (String × String) :=
  config.filterMap fun kv =>
    if pyStartsWith kv.2 "http" then some (kv.1, normalizeUrl kv.1 kv.2) else none

/-- An absolute URL with a recognized HTTP(S) scheme.  Modelled from the
spec's words ("every value is an absolute URL (begins with a recognized
scheme)"); the source itself only tests `url.startswith('http')`. -/
def isHttpUrl (s : String) : Bool :=
  pyStartsWith s "http://" || pyStartsWith s "https://"

/-- The mutable state of a `Client` instance: the `signed_in` flag, the
normalized `_endpoints` map, and the `lru_cache` state of `get_unit`
(`none` = not yet computed for this instance). -/
structure Client where
  signed_in : Bool
  endpoints : List (String × String)
  unitCache : Option String
deriving DecidableEq, Repr

/-- Python `dict` lookup on an association list (keys are unique in a
parsed JSON object, so first match is the value). -/
def lookupStr : List (String × String) → String → Option String
  | [], _ => none
  | (k, v) :: rest, key => if k = key then some v else lookupStr rest key

/-- Python `dict` assignment `d[k] = v`: overwrite in place, or append. -/
def setKw : List (String × String) → String → String → List (String × String)
  | [], k, v => [(k, v)]
  | (k', v') :: rest, k, v =>
    if k' = k then (k, v) :: rest else (k', v') :: setKw rest k v

/-- Oracle for one HTTP GET whose JSON body is read: maps the request URL to
the extracted string (for `get_unit`: `res.json()['message']`), or to a
network/parse failure. -/
def Net : Type := String → Except PyError String

/-- An HTTP response as far as `sign_in` observes it: the status code and
whether the (case-insensitive) header set contains `etag`. -/
structure Response where
  status : Nat
  hasEtag : Bool
deriving DecidableEq, Repr

/-- The HTTP GET issued at the end of `Client.get`: the code runs
`self._session.get(url)` with no further arguments, so the request carries
the formatted URL and whatever query parameters were explicitly passed to
the transport (none in the source). -/
structure HttpRequest where
  url : String
  params : List (String × String)
deriving DecidableEq, Repr

/-- `Client.get_unit` with its `@lru_cache(maxsize=None)` wrapper.  On a
cache hit the body (including its `assert self.signed_in`) is skipped.  On
a miss: assert `signed_in`, look up `'current-user-unit'`, issue the GET and
cache the result.  Exceptions are not cached by `lru_cache`.  Returns the
post-call state, the list of URLs requested, and the outcome. -/
def Client.get_unit (c : Client) (net : Net) : Client × List String × Except PyError String :=
  match c.unitCache with
  | some u => (c, [], .ok u)
  | none =>
    if c.signed_in then
      match lookupStr c.endpoints "current-user-unit" with
      | none => (c, [], .error (.keyError "current-user-unit"))
      | some url =>
        match net url with
        | .error e => (c, [url], .error e)
        | .ok u => ({ c with unitCache := some u }, [url], .ok u)
    else (c, [], .error .assertionError)

/-- `Client.sign_in`: look up `'auth-url'`, POST the credentials via the
`post` oracle, and succeed exactly when the response has an `etag` header;
otherwise raise `Error('Invalid credentials')` leaving the state unchanged.
(The `assert self._endpoints is not None` always holds in this model:
construction builds the map.) -/
def Client.sign_in (c : Client) (post : String → String → String → Response)
    (username password : String) : Client × Except PyError Unit :=
  match lookupStr c.endpoints "auth-url" with
  | none => (c, .error (.keyError "auth-url"))
  | some url =>
    if (post url username password).hasEtag then
      ({ c with signed_in := true }, .ok ())
    else
      (c, .error (.error "Invalid credentials"))

/-- Core of Python `str.format` for the template language produced by
normalization (literal text plus `\x7b\x7d` and `\x7bname\x7d` fields; the
source's templates contain no numbered fields, format specs or escaped
braces).  The second argument is `none` in literal mode and `some acc`
(accumulated field name, reversed) inside a replacement field.  `\x7b\x7d`
consumes the next positional argument (IndexError when exhausted);
`\x7bname\x7d` looks `name` up among the keyword arguments (KeyError when
absent); an unterminated field is a ValueError. -/
def formatAux : List Char → Option (List Char) → List String → List (String × String) →
    Except PyError (List Char)
  | [], none, _, _ => .ok []
  | [], some _, _, _ => .error .valueError
  | '{' :: rest, none, args, kwargs => formatAux rest (some []) args kwargs
  | '}' :: rest, some nameRev, args, kwargs =>
    if nameRev.isEmpty then
      match args with
      | [] => .error .indexError
      | a :: as =>
        match formatAux rest none as kwargs with
        | .error e => .error e
        | .ok out => .ok (a.data ++ out)
    else
      match lookupStr kwargs ⟨nameRev.reverse⟩ with
      | none => .error (.keyError ⟨nameRev.reverse⟩)
      | some v =>
        match formatAux rest none args kwargs with
        | .error e => .error e
        | .ok out => .ok (v.data ++ out)
  | c :: rest, some nameRev, args, kwargs => formatAux rest (some (c :: nameRev)) args kwargs
  | c :: rest, none, args, kwargs =>
    match formatAux rest none args kwargs with
    | .error e => .error e
    | .ok out => .ok (c :: out)

/-- Python `template.format(*args, **kwargs)` on the templates this module
produces. -/
def pyFormat (template : String) (args : List String) (kwargs : List (String × String)) :
    Except PyError String :=
  match formatAux template.data none args kwargs with
  | .error e => .error e
  | .ok out => .ok ⟨out⟩

/-- `Client.get`: raise `Error('Unknown endpoint')` for an unknown name;
otherwise set `kwargs['unit']` to `self.get_unit()` (overwriting any
caller-supplied value), format the template, and issue
`self._session.get(url)` — with no query parameters passed through.
Returns the post-call state and the issued request (or the exception). -/
def Client.get (c : Client) (net : Net) (endpoint : String) (args : List String)
    (kwargs : List (String × String)) : Client × Except PyError HttpRequest :=
  match lookupStr c.endpoints endpoint with
  | none => (c, .error (.error "Unknown endpoint"))
  | some url =>
    let r := Client.get_unit c net
    match r.2.2 with
    | .error e => (r.1, .error e)
    | .ok u =>
      match pyFormat url args (setKw kwargs "unit" u) with
      | .error e => (r.1, .error e)
      | .ok formatted => (r.1, .ok { url := formatted, params := [] })

/-- `Client.sign_out`: `assert self.signed_in`, then `self.get('signout-url')`,
then clear the flag.  If the inner `get` raises, the flag is not touched. -/
def Client.sign_out (c : Client) (net : Net) : Client × Except PyError Unit :=
  if c.signed_in then
    let r := Client.get c net "signout-url" [] []
    match r.2 with
    | .error e => (r.1, .error e)
    | .ok _ => ({ r.1 with signed_in := false }, .ok ())
  else
    (c, .error .assertionError)

/-- `Client.__init__` without credentials (the `session()` path that never
signs in): endpoints are retrieved, `signed_in` starts `False`, the
`lru_cache` of `get_unit` is empty. -/
def mkClient (config : List (String × String)) : Client :=
  { signed_in := false, endpoints := retrieveEndpoints config, unitCache := none }

/-- The exit of the `session` context manager: the `finally` clause runs
`client.sign_out()`.  `body` is the outcome of the `with` block; an
exception raised by `sign_out` supersedes it (Python `finally` semantics). -/
def sessionFinally (c : Client) (net : Net) (body : Except PyError Unit) :
    Client × Except PyError Unit :=
  let r := Client.sign_out c net
  match r.2 with
  | .ok _ => (r.1, body)
  | .error e => (r.1, .error e)

example : ("http".data) = ['h', 't', 't', 'p'] := rfl

example : pyReplace "http://e/unit/%@/x" "unit/%@" "unit/{unit}" = "http://e/unit/{unit}/x" := by
  decide

/-- C9: for the singleton bootstrap configuration
`x -> http://e.example/unit/%@/%d`, endpoint normalization produces the
entry `x -> http://e.example/unit/{unit}/{}`: the unit rule rewrites
`unit/%@` and the generic-placeholder rule rewrites `%d` to `\x7b\x7d`. -/
theorem C9_example_normalization :
    retrieveEndpoints [("x", "http://e.example/unit/%@/%d")]
      = [("x", "http://e.example/unit/{unit}/{}")] := by decide

/-- C1 (code evaluated at the failing input): for the known endpoint
`member-list` whose template `http://e.example/list` has no placeholders, a
signed-in client with cached unit `123` calling
`get('member-list', lang='eng')` issues a GET carrying no query parameters
at all: the remaining keyword argument `lang=eng` is consumed neither by
the template nor by the request, contradicting the claim (and the method's
own docstring) that remaining keyword arguments are passed through as query
parameters. -/
theorem C1_kwargs_not_passed :
    Client.get (Client.mk true [("member-list", "http://e.example/list")] (some "123"))
        (fun _ => Except.ok "123") "member-list" [] [("lang", "eng")]
      = (Client.mk true [("member-list", "http://e.example/list")] (some "123"),
         Except.ok (HttpRequest.mk "http://e.example/list" [])) ∧
    ([("lang", "eng")] : List (String × String)) ≠ [] :=
  ⟨rfl, by decide⟩

/-- C2 (counterexample to the claim as stated): for the entry
`(unit-x, http://a%@)` the first two unit rules do not apply, the key starts
with `unit-` and the url ends with the two-character suffix `%@`, yet the
code's third rule (which tests for the three-character suffix `/%@`) does
not fire: the url is left unchanged instead of becoming `http://a{unit}`. -/
theorem C2_counterexample :
    pyStartsWith "unit-x" "unit-" = true ∧
    pyEndsWith "http://a%@" "%@" = true ∧
    containsSubstr "http://a%@" "unit/%@" = false ∧
    containsSubstr "http://a%@" "unitNumber=%@" = false ∧
    fixUnit "unit-x" "http://a%@" = "http://a%@" ∧
    ("http://a%@" : String) ≠ "http://a" ++ "{unit}" := by decide

/-- C2 (amended): the unit-parameter rules fire in fixed order with first
match winning and at most one rule firing: `unit/%@` is replaced by
`unit/{unit}`; else `=%@` (when `unitNumber=%@` occurs) is replaced by
`={unit}`; else when the key starts with `unit-` and the url ends with the
three-character suffix `/%@`, the final `%@` is stripped and `{unit}`
appended; else the url is unchanged. -/
theorem C2_unit_rules_amended (key url : String) :
    (containsSubstr url "unit/%@" = true →
      fixUnit key url = pyReplace url "unit/%@" "unit/{unit}") ∧
    (containsSubstr url "unit/%@" = false → containsSubstr url "unitNumber=%@" = true →
      fixUnit key url = pyReplace url "=%@" "={unit}") ∧
    (containsSubstr url "unit/%@" = false → containsSubstr url "unitNumber=%@" = false →
      pyStartsWith key "unit-" = true → pyEndsWith url "/%@" = true →
      fixUnit key url = stripLast2 url ++ "{unit}") ∧
    (containsSubstr url "unit/%@" = false → containsSubstr url "unitNumber=%@" = false →
      (pyStartsWith key "unit-" && pyEndsWith url "/%@") = false →
      fixUnit key url = url) := by
  refine ⟨?_, ?_, ?_, ?_⟩ <;> intros <;> simp_all [fixUnit]

/-- C2 (witness): the amended rules applied to the concrete entry
`(k, http://e/unit/%@)`. -/
theorem C2_witness :
    containsSubstr "http://e/unit/%@" "unit/%@" = true ∧
    fixUnit "k" "http://e/unit/%@"
      = pyReplace "http://e/unit/%@" "unit/%@" "unit/{unit}" :=
  ⟨by decide, (C2_unit_rules_amended "k" "http://e/unit/%@").1 (by decide)⟩

/-- C3 (counterexample to the claim as stated): for a retained url
containing `membership-record/%@` the code replaces EVERY occurrence of
`%@` with `{member}`, not only the one inside `membership-record/%@`: with
a second `%@` present the normalized url ends in `{member}`, not in the
`\x7b\x7d` the claim's generic-placeholder rule would have produced. -/
theorem C3_counterexample :
    normalizeUrl "k" "http://e/membership-record/%@/%@"
        = "http://e/membership-record/{member}/{member}" ∧
    ("http://e/membership-record/{member}/{member}" : String)
        ≠ "http://e/membership-record/{member}/{}" := by decide

/-- C3 (amended): if the url contains `membership-record/%@`, every
occurrence of `%@` is replaced by `{member}` (`%d` and `%.0f` tokens are
left to the later generic-placeholder rule); else if it contains
`photo/url/%@`, `url/%@` is replaced by `url/{member}`; else the url is
unchanged. -/
theorem C3_member_rules_amended (url : String) :
    (containsSubstr url "membership-record/%@" = true →
      fixMember url = pyReplace url "%@" "{member}") ∧
    (containsSubstr url "membership-record/%@" = false →
      containsSubstr url "photo/url/%@" = true →
      fixMember url = pyReplace url "url/%@" "url/{member}") ∧
    (containsSubstr url "membership-record/%@" = false →
      containsSubstr url "photo/url/%@" = false →
      fixMember url = url) := by
  refine ⟨?_, ?_, ?_⟩ <;> intros <;> simp_all [fixMember]

/-- C3 (witness): the amended member rule applied to the concrete url
`http://e/membership-record/%@`. -/
theorem C3_witness :
    containsSubstr "http://e/membership-record/%@" "membership-record/%@" = true ∧
    fixMember "http://e/membership-record/%@"
      = pyReplace "http://e/membership-record/%@" "%@" "{member}" :=
  ⟨by decide, (C3_member_rules_amended "http://e/membership-record/%@").1 (by decide)⟩

/-- C5: `sign_in` succeeds exactly when the auth endpoint's response
carries an `etag` header, regardless of its status code; when the header is
absent it raises `Error('Invalid credentials')` and the client state (in
particular the `signed_in` flag) is unchanged; only on success is
`signed_in` set to `True`. -/
theorem C5_sign_in_etag (c : Client) (post : String → String → String → Response)
    (username password a : String)
    (ha : lookupStr c.endpoints "auth-url" = some a) :
    ((Client.sign_in c post username password).2 = Except.ok ()
        ↔ (post a username password).hasEtag = true) ∧
    ((post a username password).hasEtag = false →
      Client.sign_in c post username password
        = (c, Except.error (PyError.error "Invalid credentials"))) ∧
    ((post a username password).hasEtag = true →
      Client.sign_in c post username password = ({ c with signed_in := true }, Except.ok ())) := by
  unfold Client.sign_in
  rw [ha]
  cases h : (post a username password).hasEtag <;> simp [h]

/-- C5 (witness): a concrete post oracle answering with status 200 but no
`etag` header makes `sign_in` fail and leaves the client signed out. -/
theorem C5_witness :
    lookupStr (Client.mk false [("auth-url", "http://e/a")] none).endpoints "auth-url"
        = some "http://e/a" ∧
    Client.sign_in (Client.mk false [("auth-url", "http://e/a")] none)
        (fun _ _ _ => Response.mk 200 false) "user" "pw"
      = (Client.mk false [("auth-url", "http://e/a")] none,
         Except.error (PyError.error "Invalid credentials")) :=
  ⟨rfl, (C5_sign_in_etag (Client.mk false [("auth-url", "http://e/a")] none)
      (fun _ _ _ => Response.mk 200 false) "user" "pw" "http://e/a" rfl).2.1 rfl⟩

theorem replFuel_cons_ne (p : Char) (ps rep : List Char) (n : Nat) (c : Char)
    (t : List Char) (h : p ≠ c) :
    replFuel (p :: ps) rep (n + 1) (c :: t) = c :: replFuel (p :: ps) rep n t := by
  simp [replFuel, List.isPrefixOf, h]

theorem startsWith_http_data (s : String) (h : pyStartsWith s "http" = true) :
    ∃ t, s.data = 'h' :: 't' :: 't' :: 'p' :: t := by
  unfold pyStartsWith at h
  rw [List.isPrefixOf_iff_prefix] at h
  obtain ⟨t, ht⟩ := h
  exact ⟨t, by rw [← ht]; rfl⟩

theorem startsWith_http_of_data (s : String) (t : List Char)
    (h : s.data = 'h' :: 't' :: 't' :: 'p' :: t) : pyStartsWith s "http" = true := by
  unfold pyStartsWith
  rw [h]
  simp [List.isPrefixOf]

theorem replFuel_http4 (p : Char) (ps rep t : List Char)
    (hh : p ≠ 'h') (hht : p ≠ 't') (hhp : p ≠ 'p') :
    replFuel (p :: ps) rep (t.length + 4) ('h' :: 't' :: 't' :: 'p' :: t)
      = 'h' :: 't' :: 't' :: 'p' :: replFuel (p :: ps) rep t.length t := by
  have e1 : t.length + 4 = (t.length + 3) + 1 := rfl
  rw [e1, replFuel_cons_ne p ps rep _ _ _ hh]
  have e2 : t.length + 3 = (t.length + 2) + 1 := rfl
  rw [e2, replFuel_cons_ne p ps rep _ _ _ hht]
  have e3 : t.length + 2 = (t.length + 1) + 1 := rfl
  rw [e3, replFuel_cons_ne p ps rep _ _ _ hht]
  rw [replFuel_cons_ne p ps rep _ _ _ hhp]

theorem pyReplace_keeps_http (s pat rep : String) (p : Char) (ps : List Char)
    (hpat : pat.data = p :: ps) (hh : p ≠ 'h') (hht : p ≠ 't') (hhp : p ≠ 'p')
    (hs : pyStartsWith s "http" = true) :
    pyStartsWith (pyReplace s pat rep) "http" = true := by
  obtain ⟨t, hdata⟩ := startsWith_http_data s hs
  have hmk : pyReplace s pat rep
      = ⟨replFuel (p :: ps) rep.data (t.length + 4) ('h' :: 't' :: 't' :: 'p' :: t)⟩ := by
    unfold pyReplace
    rw [hpat, hdata]
    rfl
  exact startsWith_http_of_data _ (replFuel (p :: ps) rep.data t.length t)
    (by rw [hmk, replFuel_http4 p ps rep.data t hh hht hhp])

theorem stripLast2_keeps_http (s : String)
    (hs : pyStartsWith s "http" = true) (he : pyEndsWith s "/%@" = true) :
    pyStartsWith (stripLast2 s ++ "{unit}") "http" = true := by
  obtain ⟨t, hdata⟩ := startsWith_http_data s hs
  unfold pyEndsWith at he
  rw [List.isSuffixOf_iff_suffix] at he
  obtain ⟨pre, hpre⟩ := he
  have hpre' : pre ++ ['/', '%', '@'] = s.data := hpre
  have hlen : t.length + 4 = pre.length + 3 := by
    have h1 := congrArg List.length hdata
    have h2 := congrArg List.length hpre'
    simp at h1 h2
    omega
  have ht2 : 2 ≤ t.length := by
    by_contra hcon
    push_neg at hcon
    have hdrop : s.data.drop pre.length = ['/', '%', '@'] := by
      rw [← hpre', List.drop_left]
    rcases t with _ | ⟨a, _ | ⟨b, t'⟩⟩
    · have hp1 : pre.length = 1 := by simp at hlen; omega
      rw [hdata, hp1] at hdrop
      simp at hdrop
    · have hp1 : pre.length = 2 := by simp at hlen; omega
      rw [hdata, hp1] at hdrop
      simp at hdrop
    · simp at hcon
      omega
  have hstrip : (stripLast2 s).data = ['h', 't', 't', 'p'] ++ t.take (t.length - 2) := by
    show s.data.take (s.data.length - 2) = _
    rw [hdata]
    have hd2 : ('h' :: 't' :: 't' :: 'p' :: t) = ['h', 't', 't', 'p'] ++ t := rfl
    rw [hd2, List.take_append_eq_append_take]
    have hlen2 : ((['h', 't', 't', 'p'] : List Char) ++ t).length - 2 = t.length + 2 := by
      simp
    rw [hlen2]
    rw [List.take_of_length_le (l := (['h', 't', 't', 'p'] : List Char)) (by simp; omega)]
    have hsub : t.length + 2 - (['h', 't', 't', 'p'] : List Char).length = t.length - 2 := by
      simp
    rw [hsub]
  apply startsWith_http_of_data _ (t.take (t.length - 2) ++ "{unit}".data)
  rw [String.data_append, hstrip]
  simp

theorem condReplace_keeps_http (x pat rep : String) (p : Char) (ps : List Char)
    (hpat : pat.data = p :: ps) (hh : p ≠ 'h') (hht : p ≠ 't') (hhp : p ≠ 'p')
    (hx : pyStartsWith x "http" = true) :
    pyStartsWith (if containsSubstr x pat then pyReplace x pat rep else x) "http"
      = true := by
  cases hc : containsSubstr x pat with
  | true =>
    simp only [hc, if_true]
    exact pyReplace_keeps_http x pat rep p ps hpat hh hht hhp hx
  | false =>
    simp only [hc, Bool.false_eq_true, if_false]
    exact hx

theorem fixUnit_keeps_http (key url : String) (h : pyStartsWith url "http" = true) :
    pyStartsWith (fixUnit key url) "http" = true := by
  cases h1 : containsSubstr url "unit/%@" with
  | true =>
    rw [show fixUnit key url = pyReplace url "unit/%@" "unit/{unit}" by simp [fixUnit, h1]]
    exact pyReplace_keeps_http url "unit/%@" "unit/{unit}" 'u' ("nit/%@".data) rfl
      (by decide) (by decide) (by decide) h
  | false =>
    cases h2 : containsSubstr url "unitNumber=%@" with
    | true =>
      rw [show fixUnit key url = pyReplace url "=%@" "={unit}" by simp [fixUnit, h1, h2]]
      exact pyReplace_keeps_http url "=%@" "={unit}" '=' ("%@".data) rfl
        (by decide) (by decide) (by decide) h
    | false =>
      cases h3 : pyStartsWith key "unit-" && pyEndsWith url "/%@" with
      | true =>
        have he : pyEndsWith url "/%@" = true := (Bool.and_eq_true _ _ |>.mp h3).2
        rw [show fixUnit key url = stripLast2 url ++ "{unit}" by simp [fixUnit, h1, h2, h3]]
        exact stripLast2_keeps_http url h he
      | false =>
        rw [show fixUnit key url = url by simp [fixUnit, h1, h2, h3]]
        exact h

theorem fixMember_keeps_http (url : String) (h : pyStartsWith url "http" = true) :
    pyStartsWith (fixMember url) "http" = true := by
  cases h1 : containsSubstr url "membership-record/%@" with
  | true =>
    rw [show fixMember url = pyReplace url "%@" "{member}" by simp [fixMember, h1]]
    exact pyReplace_keeps_http url "%@" "{member}" '%' ("@".data) rfl
      (by decide) (by decide) (by decide) h
  | false =>
    cases h2 : containsSubstr url "photo/url/%@" with
    | true =>
      rw [show fixMember url = pyReplace url "url/%@" "url/{member}" by
        simp [fixMember, h1, h2]]
      exact pyReplace_keeps_http url "url/%@" "url/{member}" 'u' ("rl/%@".data) rfl
        (by decide) (by decide) (by decide) h
    | false =>
      rw [show fixMember url = url by simp [fixMember, h1, h2]]
      exact h

theorem fixMisc_keeps_http (url : String) (h : pyStartsWith url "http" = true) :
    pyStartsWith (fixMisc url) "http" = true := by
  have s1 := condReplace_keeps_http url "%@" "{}" '%' ("@".data) rfl
    (by decide) (by decide) (by decide) h
  have s2 := condReplace_keeps_http _ "%d" "{}" '%' ("d".data) rfl
    (by decide) (by decide) (by decide) s1
  have s3 := condReplace_keeps_http _ "%.0f" "{}" '%' (".0f".data) rfl
    (by decide) (by decide) (by decide) s2
  exact s3

theorem normalizeUrl_keeps_http (key url : String) (h : pyStartsWith url "http" = true) :
    pyStartsWith (normalizeUrl key url) "http" = true :=
  fixMisc_keeps_http _ (fixMember_keeps_http _ (fixUnit_keeps_http key url h))

theorem setKw_setKw (l : List (String × String)) (k v u : String) :
    setKw (setKw l k v) k u = setKw l k u := by
  induction l with
  | nil => simp [setKw]
  | cons kv rest ih =>
    obtain ⟨k', v'⟩ := kv
    by_cases h : k' = k
    · simp [setKw, h]
    · simp [setKw, h, ih]

theorem get_unit_cached (d : Client) (net : Net) (u : String) (h : d.unitCache = some u) :
    Client.get_unit d net = (d, [], Except.ok u) := by
  simp [Client.get_unit, h]

theorem get_unit_signed_in (d : Client) (net : Net) :
    ((Client.get_unit d net).1).signed_in = d.signed_in := by
  unfold Client.get_unit
  cases hc : d.unitCache with
  | some u => rfl
  | none =>
    by_cases hs : d.signed_in
    · cases hl : lookupStr d.endpoints "current-user-unit" with
      | none => simp [hs]
      | some url => cases hn : net url <;> simp [hs, hl, hn]
    · simp [hs]

theorem get_unit_endpoints (d : Client) (net : Net) :
    ((Client.get_unit d net).1).endpoints = d.endpoints := by
  unfold Client.get_unit
  cases hc : d.unitCache with
  | some u => rfl
  | none =>
    by_cases hs : d.signed_in
    · cases hl : lookupStr d.endpoints "current-user-unit" with
      | none => simp [hs]
      | some url => cases hn : net url <;> simp [hs, hl, hn]
    · simp [hs]

theorem get_client_eq (d : Client) (net : Net) (ep : String) (args : List String)
    (kw : List (String × String)) :
    ((Client.get d net ep args kw).1) = d ∨
    ((Client.get d net ep args kw).1) = (Client.get_unit d net).1 := by
  cases hl : lookupStr d.endpoints ep with
  | none => left; simp [Client.get, hl]
  | some url =>
    cases hres : (Client.get_unit d net).2.2 with
    | error e => right; simp [Client.get, hl, hres]
    | ok u =>
      cases hf : pyFormat url args (setKw kw "unit" u) with
      | error e => right; simp [Client.get, hl, hres, hf]
      | ok f => right; simp [Client.get, hl, hres, hf]

theorem get_signed_in (d : Client) (net : Net) (ep : String) (args : List String)
    (kw : List (String × String)) :
    ((Client.get d net ep args kw).1).signed_in = d.signed_in := by
  rcases get_client_eq d net ep args kw with h | h
  · rw [h]
  · rw [h, get_unit_signed_in]

theorem get_endpoints (d : Client) (net : Net) (ep : String) (args : List String)
    (kw : List (String × String)) :
    ((Client.get d net ep args kw).1).endpoints = d.endpoints := by
  rcases get_client_eq d net ep args kw with h | h
  · rw [h]
  · rw [h, get_unit_endpoints]

theorem get_client_unitCache_some (d : Client) (net : Net) (u : String) (ep : String)
    (args : List String) (kw : List (String × String)) (h : d.unitCache = some u) :
    ((Client.get d net ep args kw).1).unitCache = some u := by
  rcases get_client_eq d net ep args kw with hc | hc
  · rw [hc]; exact h
  · rw [hc, get_unit_cached d net u h]; exact h

theorem sign_in_unitCache (d : Client) (post : String → String → String → Response)
    (un pw : String) : ((Client.sign_in d post un pw).1).unitCache = d.unitCache := by
  unfold Client.sign_in
  cases hl : lookupStr d.endpoints "auth-url" with
  | none => rfl
  | some url => by_cases h : (post url un pw).hasEtag <;> simp [h]

theorem sign_in_endpoints (d : Client) (post : String → String → String → Response)
    (un pw : String) : ((Client.sign_in d post un pw).1).endpoints = d.endpoints := by
  unfold Client.sign_in
  cases hl : lookupStr d.endpoints "auth-url" with
  | none => rfl
  | some url => by_cases h : (post url un pw).hasEtag <;> simp [h]

theorem sign_out_unitCache_some (d : Client) (net : Net) (u : String)
    (h : d.unitCache = some u) : ((Client.sign_out d net).1).unitCache = some u := by
  have h1 := get_client_unitCache_some d net u "signout-url" [] [] h
  by_cases hs : d.signed_in
  · cases hr : (Client.get d net "signout-url" [] []).2 with
    | error e => simp [Client.sign_out, hs, hr, h1]
    | ok f => simp [Client.sign_out, hs, hr, h1]
  · simp [Client.sign_out, hs, h]

theorem sign_out_endpoints (d : Client) (net : Net) :
    ((Client.sign_out d net).1).endpoints = d.endpoints := by
  have h1 := get_endpoints d net "signout-url" [] []
  by_cases hs : d.signed_in
  · cases hr : (Client.get d net "signout-url" [] []).2 with
    | error e => simp [Client.sign_out, hs, hr, h1]
    | ok f => simp [Client.sign_out, hs, hr, h1]
  · simp [Client.sign_out, hs]

/-- C7: on a known endpoint, `get` resolves the unit number through
`get_unit` and stores it under the keyword `unit`, overwriting any
caller-supplied value (so the caller-supplied `unit` is irrelevant to the
outcome); `get_unit` runs on every such call — even when the template has
no `{unit}` placeholder — so a client that is signed out with an empty
unit cache always fails the implicit sign-in precondition. -/
theorem C7_unit_overwritten (c : Client) (net : Net) (ep url : String)
    (args : List String) (kwargs : List (String × String))
    (hep : lookupStr c.endpoints ep = some url) :
    (∀ v, Client.get c net ep args (setKw kwargs "unit" v) = Client.get c net ep args kwargs) ∧
    (c.signed_in = false → c.unitCache = none →
      Client.get c net ep args kwargs = (c, Except.error PyError.assertionError)) ∧
    (∀ c' reqs u, Client.get_unit c net = (c', reqs, Except.ok u) →
      Client.get c net ep args kwargs
        = (c', match pyFormat url args (setKw kwargs "unit" u) with
               | Except.error e => Except.error e
               | Except.ok f => Except.ok (HttpRequest.mk f []))) := by
  refine ⟨?_, ?_, ?_⟩
  · intro v
    simp only [Client.get, hep, setKw_setKw]
  · intro hs hc
    have hgu : Client.get_unit c net = (c, [], Except.error PyError.assertionError) := by
      simp [Client.get_unit, hc, hs]
    simp [Client.get, hep, hgu]
  · intro c' reqs u hgu
    cases hf : pyFormat url args (setKw kwargs "unit" u) with
    | error e => simp [Client.get, hep, hgu, hf]
    | ok f => simp [Client.get, hep, hgu, hf]

/-- C7 (witness): at a concrete signed-in client with a cached unit, a
caller-supplied `unit=zzz` has no effect on the issued request. -/
theorem C7_witness :
    Client.get (Client.mk true [("a", "http://e/x")] (some "9")) (fun _ => Except.ok "9")
        "a" [] (setKw [] "unit" "zzz")
      = Client.get (Client.mk true [("a", "http://e/x")] (some "9")) (fun _ => Except.ok "9")
        "a" [] [] :=
  (C7_unit_overwritten (Client.mk true [("a", "http://e/x")] (some "9"))
      (fun _ => Except.ok "9") "a" "http://e/x" [] [] rfl).1 "zzz"

/-- C8: for a signed-in client whose `lru_cache` is empty, a successful
first `get_unit` issues exactly one request and fills the cache; calling
`get_unit` again returns the identical cached value with no further
request and no state change, and the cache (hence the memoized value)
survives arbitrary `sign_in` and `sign_out` calls on the same instance. -/
theorem C8_get_unit_memoized (c : Client) (net : Net) (u : String) (c' : Client)
    (reqs : List String) (hsign : c.signed_in = true) (hcache : c.unitCache = none)
    (hrun : Client.get_unit c net = (c', reqs, Except.ok u)) :
    reqs.length = 1 ∧
    c'.unitCache = some u ∧
    Client.get_unit c' net = (c', [], Except.ok u) ∧
    (∀ d : Client, d.unitCache = some u →
      Client.get_unit d net = (d, [], Except.ok u) ∧
      (∀ post un pw, ((Client.sign_in d post un pw).1).unitCache = some u) ∧
      (∀ net2, ((Client.sign_out d net2).1).unitCache = some u)) := by
  have hbase : c'.unitCache = some u ∧ reqs.length = 1 := by
    cases hl : lookupStr c.endpoints "current-user-unit" with
    | none =>
      have hgu : Client.get_unit c net
          = (c, [], Except.error (PyError.keyError "current-user-unit")) := by
        simp [Client.get_unit, hcache, hsign, hl]
      rw [hgu] at hrun
      simp at hrun
    | some url =>
      cases hn : net url with
      | error e =>
        have hgu : Client.get_unit c net = (c, [url], Except.error e) := by
          simp [Client.get_unit, hcache, hsign, hl, hn]
        rw [hgu] at hrun
        simp at hrun
      | ok w =>
        have hgu : Client.get_unit c net
            = ({ c with unitCache := some w }, [url], Except.ok w) := by
          simp [Client.get_unit, hcache, hsign, hl, hn]
        rw [hgu] at hrun
        obtain ⟨hc', hreqs, hw⟩ := by simpa using hrun
        subst hw
        constructor
        · rw [← hc']
        · rw [← hreqs]; rfl
  refine ⟨hbase.2, hbase.1, get_unit_cached c' net u hbase.1, ?_⟩
  intro d hd
  exact ⟨get_unit_cached d net u hd,
    fun post un pw => by rw [sign_in_unitCache]; exact hd,
    fun net2 => sign_out_unitCache_some d net2 u hd⟩

/-- C4 (counterexample to the claim as stated): the bootstrap entry
`(k, httpx://evil)` starts with the four characters `http`, so the code
retains it, yet the stored value does not begin with a recognized HTTP(S)
scheme (`http://` or `https://`). -/
theorem C4_counterexample :
    pyStartsWith "httpx://evil" "http" = true ∧
    retrieveEndpoints [("k", "httpx://evil")] = [("k", "httpx://evil")] ∧
    isHttpUrl "httpx://evil" = false := by decide

/-- C4 (amended): every entry of the endpoint map comes from a bootstrap
entry whose value starts with the four-character prefix `http` (so entries
whose value lacks that prefix are excluded), every stored value still
starts with `http` after normalization, and the endpoint map is preserved
by `get_unit`, `get`, `sign_in` and `sign_out`.  (The code checks only
`startswith('http')`, not a full recognized scheme.) -/
theorem C4_endpoint_map_amended (config : List (String × String)) :
    (∀ kv ∈ retrieveEndpoints config,
      ∃ src ∈ config, pyStartsWith src.2 "http" = true ∧
        kv = (src.1, normalizeUrl src.1 src.2)) ∧
    (∀ kv ∈ retrieveEndpoints config, pyStartsWith kv.2 "http" = true) ∧
    (∀ (c : Client) (net : Net), ((Client.get_unit c net).1).endpoints = c.endpoints) ∧
    (∀ (c : Client) (net : Net) ep args kw,
      ((Client.get c net ep args kw).1).endpoints = c.endpoints) ∧
    (∀ (c : Client) post un pw, ((Client.sign_in c post un pw).1).endpoints = c.endpoints) ∧
    (∀ (c : Client) (net : Net), ((Client.sign_out c net).1).endpoints = c.endpoints) := by
  have hmem : ∀ kv ∈ retrieveEndpoints config,
      ∃ src ∈ config, pyStartsWith src.2 "http" = true ∧
        kv = (src.1, normalizeUrl src.1 src.2) := by
    intro kv hkv
    unfold retrieveEndpoints at hkv
    rw [List.mem_filterMap] at hkv
    obtain ⟨src, hsrc, hf⟩ := hkv
    cases hc : pyStartsWith src.2 "http" with
    | false => rw [hc] at hf; simp at hf
    | true =>
      rw [hc] at hf
      simp at hf
      exact ⟨src, hsrc, hc, hf.symm⟩
  refine ⟨hmem, ?_, get_unit_endpoints, get_endpoints, sign_in_endpoints,
    sign_out_endpoints⟩
  intro kv hkv
  obtain ⟨src, hsrc, hhttp, hkv'⟩ := hmem kv hkv
  rw [hkv']
  exact normalizeUrl_keeps_http src.1 src.2 hhttp

/-- C4 (witness): the amended map invariant evaluated on the singleton
configuration `k -> http://e/x`. -/
theorem C4_witness :
    pyStartsWith (("k", "http://e/x") : String × String).2 "http" = true :=
  (C4_endpoint_map_amended [("k", "http://e/x")]).2.1 ("k", "http://e/x") (by decide)

theorem sign_out_ok_signed_in (c c' : Client) (net : Net)
    (h : Client.sign_out c net = (c', Except.ok ())) : c'.signed_in = false := by
  cases hs : c.signed_in with
  | false =>
    have hso : Client.sign_out c net = (c, Except.error PyError.assertionError) := by
      simp [Client.sign_out, hs]
    rw [hso] at h
    simp at h
  | true =>
    cases hr : (Client.get c net "signout-url" [] []).2 with
    | error e =>
      have hso : Client.sign_out c net
          = ((Client.get c net "signout-url" [] []).1, Except.error e) := by
        simp [Client.sign_out, hs, hr]
      rw [hso] at h
      simp at h
    | ok r =>
      have hso : Client.sign_out c net
          = ({ (Client.get c net "signout-url" [] []).1 with signed_in := false },
             Except.ok ()) := by
        simp [Client.sign_out, hs, hr]
      rw [hso] at h
      have h1 := congrArg Prod.fst h
      simp at h1
      rw [← h1]

/-- C10: while signed in, if the inner `get('signout-url')` raises then
`sign_out` propagates that exception and the `signed_in` flag stays `True`
(the flag is cleared only after the inner GET completes); in the claim's
two scenarios — `signout-url` absent from the endpoint map, and the
unit-number fetch failing — the whole client state is unchanged. -/
theorem C10_sign_out_error_prop (c : Client) (net : Net) (hs : c.signed_in = true) :
    (∀ c'' e, Client.get c net "signout-url" [] [] = (c'', Except.error e) →
      Client.sign_out c net = (c'', Except.error e) ∧ c''.signed_in = true) ∧
    (∀ c'' r, Client.get c net "signout-url" [] [] = (c'', Except.ok r) →
      Client.sign_out c net = ({ c'' with signed_in := false }, Except.ok ())) ∧
    (lookupStr c.endpoints "signout-url" = none →
      Client.sign_out c net = (c, Except.error (PyError.error "Unknown endpoint"))) ∧
    (∀ surl cu e, c.unitCache = none →
      lookupStr c.endpoints "signout-url" = some surl →
      lookupStr c.endpoints "current-user-unit" = some cu →
      net cu = Except.error e →
      Client.sign_out c net = (c, Except.error e)) := by
  have hget : ∀ c'' e, Client.get c net "signout-url" [] [] = (c'', Except.error e) →
      Client.sign_out c net = (c'', Except.error e) ∧ c''.signed_in = true := by
    intro c'' e hg
    have hr : (Client.get c net "signout-url" [] []).2 = Except.error e := by rw [hg]
    have h1 : (Client.get c net "signout-url" [] []).1 = c'' := by rw [hg]
    constructor
    · have hso : Client.sign_out c net
          = ((Client.get c net "signout-url" [] []).1, Except.error e) := by
        simp [Client.sign_out, hs, hr]
      rw [hso, h1]
    · have := get_signed_in c net "signout-url" [] []
      rw [h1, hs] at this
      exact this
  refine ⟨hget, ?_, ?_, ?_⟩
  · intro c'' r hg
    have hr : (Client.get c net "signout-url" [] []).2 = Except.ok r := by rw [hg]
    have h1 : (Client.get c net "signout-url" [] []).1 = c'' := by rw [hg]
    have hso : Client.sign_out c net
        = ({ (Client.get c net "signout-url" [] []).1 with signed_in := false },
           Except.ok ()) := by
      simp [Client.sign_out, hs, hr]
    rw [hso, h1]
  · intro hl
    have hg : Client.get c net "signout-url" [] []
        = (c, Except.error (PyError.error "Unknown endpoint")) := by
      simp [Client.get, hl]
    exact (hget c (PyError.error "Unknown endpoint") hg).1
  · intro surl cu e hc hsurl hcu hnet
    have hgu : Client.get_unit c net = (c, [cu], Except.error e) := by
      simp [Client.get_unit, hc, hs, hcu, hnet]
    have hg : Client.get c net "signout-url" [] [] = (c, Except.error e) := by
      simp [Client.get, hsurl, hgu]
    exact (hget c e hg).1

/-- C10 (witness): a signed-in client whose endpoint map lacks
`signout-url` propagates `Error('Unknown endpoint')` from `sign_out` and
its state is unchanged (`signed_in` still `True`). -/
theorem C10_witness :
    Client.sign_out (Client.mk true [] none) (fun _ => Except.ok "")
      = (Client.mk true [] none, Except.error (PyError.error "Unknown endpoint")) :=
  (C10_sign_out_error_prop (Client.mk true [] none) (fun _ => Except.ok "") rfl).2.2.1 rfl

/-- C6 (counterexample to the claim as stated): entering the scoped
`session()` helper without credentials (so `signed_in` is `False`), running
a body that returns normally and never signs in, makes scope exit raise the
sign-out precondition violation (`assert self.signed_in` fails, an
`AssertionError`), contradicting "scope exit must not raise a sign-out
precondition violation". -/
theorem C6_counterexample :
    sessionFinally (mkClient [("auth-url", "http://e/a")]) (fun _ => Except.ok "u")
        (Except.ok ())
      = (mkClient [("auth-url", "http://e/a")], Except.error PyError.assertionError) := rfl

/-- C6 (amended): the scoped helper invokes `sign_out` on every exit path
(normal return or error): a successful `sign_out` clears `signed_in` and
the body's outcome is propagated, a failing `sign_out` propagates its own
exception; in particular, when the scope was entered without credentials
and the caller never signed in, scope exit raises the sign-out
precondition violation (`AssertionError`). -/
theorem C6_scope_sign_out (c : Client) (net : Net) (body : Except PyError Unit) :
    (c.signed_in = false →
      sessionFinally c net body = (c, Except.error PyError.assertionError)) ∧
    (∀ c', Client.sign_out c net = (c', Except.ok ()) →
      sessionFinally c net body = (c', body) ∧ c'.signed_in = false) ∧
    (∀ c' e, Client.sign_out c net = (c', Except.error e) →
      sessionFinally c net body = (c', Except.error e)) := by
  refine ⟨?_, ?_, ?_⟩
  · intro h
    simp [sessionFinally, Client.sign_out, h]
  · intro c' h
    exact ⟨by simp [sessionFinally, h], sign_out_ok_signed_in c c' net h⟩
  · intro c' e h
    simp [sessionFinally, h]

/-- C6 (witness): a never-signed-in client whose body raised an exception
still goes through `sign_out` at scope exit, which raises the
`AssertionError` precondition violation. -/
theorem C6_witness :
    sessionFinally (Client.mk false [] none) (fun _ => Except.ok "")
        (Except.error (PyError.error "boom"))
      = (Client.mk false [] none, Except.error PyError.assertionError) :=
  (C6_scope_sign_out (Client.mk false [] none) (fun _ => Except.ok "")
      (Except.error (PyError.error "boom"))).1 rfl

/-- C8 (witness): a concrete signed-in client fetches unit `77` once; the
repeated call returns the cached `77` with no request. -/
theorem C8_witness :
    Client.get_unit (Client.mk true [("current-user-unit", "http://e/cu")] (some "77"))
        (fun _ => Except.ok "77")
      = (Client.mk true [("current-user-unit", "http://e/cu")] (some "77"), [],
         Except.ok "77") :=
  (C8_get_unit_memoized (Client.mk true [("current-user-unit", "http://e/cu")] none)
      (fun _ => Except.ok "77") "77"
      (Client.mk true [("current-user-unit", "http://e/cu")] (some "77"))
      ["http://e/cu"] rfl rfl rfl).2.2.1
